import Mathlib

/-!
Verification development for the component Manager of the userver framework
(core/src/components/manager.cpp).  The C++ source is shallowly embedded:
pure decision logic becomes Lean functions, and the sequential effect of the
boot / shutdown code paths is captured as explicit event traces.
-/

namespace Userver

/-! ## CPU limit guessing (manager.cpp, `GuessCpuLimit`, lines 42-74) -/

/-- Characters accepted as whitespace by `std::isspace` in the default
locale: space, tab, newline, vertical tab, form feed, carriage return. -/
def isSpaceChar (c : Char) : Bool :=
  c = ' ' || c = Char.ofNat 9 || c = Char.ofNat 10 || c = Char.ofNat 11 ||
  c = Char.ofNat 12 || c = Char.ofNat 13

/-- Exact value of a parsed decimal literal: `sign * mantissa * 10 ^ (exp10 -
fracLen)`.  The mantissa holds the integral and fractional digits run
together, `fracLen` is the number of fractional digits, and `exp10` is the
explicit exponent (0 when absent).  This represents the literal exactly; the
claims under verification only involve values that `double` also represents
exactly. -/
structure DecValue where
  sign : Int
  mantissa : Nat
  fracLen : Nat
  exp10 : Int
deriving DecidableEq

/-- Result of `std::stod(str, &end)`: a parsed value together with the index
of the first unconverted character, or a parse failure
(`std::invalid_argument`). -/
inductive StodResult
  | ok (val : DecValue) (endPos : Nat)
  | err
deriving DecidableEq

/-- Longest prefix of decimal digits together with the rest of the input. -/
def spanDigits : List Char → List Char × List Char
  | [] => ([], [])
  | c :: cs =>
    if c.isDigit then
      let (d, r) := spanDigits cs
      (c :: d, r)
    else ([], c :: cs)

/-- Numeric value of a list of decimal digits. -/
def digitsVal (l : List Char) : Nat :=
  l.foldl (fun a c => a * 10 + (c.toNat - 48)) 0

/-- Exponent part of a decimal literal (`e`/`E`, optional sign, digits):
returns the exponent value and the number of characters consumed, or `none`
when no well-formed exponent starts here. -/
def parseExp : List Char → Option (Int × Nat)
  | [] => none
  | c :: cs =>
    if c = 'e' ∨ c = 'E' then
      match cs with
      | [] => none
      | s :: rest =>
        if s = '+' ∨ s = '-' then
          match spanDigits rest with
          | ([], _) => none
          | (ds, _) =>
            some (if s = '-' then -(digitsVal ds : Int) else (digitsVal ds : Int),
                  2 + ds.length)
        else
          match spanDigits cs with
          | ([], _) => none
          | (ds, _) => some ((digitsVal ds : Int), 1 + ds.length)
    else none

/-- Models `std::stod` on plain decimal literals: optional leading
whitespace, optional sign, digits with an optional decimal point and an
optional exponent.  At least one digit must be present, otherwise
`std::invalid_argument` is thrown (`StodResult.err`).  The hexadecimal,
infinity and NaN forms of `strtod` are outside this model; on the inputs the
Manager cares about they are rejected by the suffix check either way. -/
def stodCore (l : List Char) : StodResult :=
  let ws := (l.takeWhile isSpaceChar).length
  let r1 := l.drop ws
  match r1 with
  | '+' :: cs => stodAfterSign ws 1 1 cs
  | '-' :: cs => stodAfterSign ws (-1) 1 cs
  | _ => stodAfterSign ws 1 0 r1
where
  /-- Continuation of `stodCore` after the optional sign has been consumed. -/
  stodAfterSign (ws : Nat) (sign : Int) (signLen : Nat) (r2 : List Char) :
      StodResult :=
    let (intDs, r3) := spanDigits r2
    let (dotLen, fracDs, r4) :=
      match r3 with
      | '.' :: cs =>
        let (f, r) := spanDigits cs
        (1, f, r)
      | _ => ((0 : Nat), ([] : List Char), r3)
    if intDs = [] ∧ fracDs = [] then .err
    else
      let mantissa := digitsVal (intDs ++ fracDs)
      let consumed := ws + signLen + intDs.length + dotLen + fracDs.length
      match parseExp r4 with
      | some (e, ec) =>
        .ok ⟨sign, mantissa, fracDs.length, e⟩ (consumed + ec)
      | none => .ok ⟨sign, mantissa, fracDs.length, 0⟩ consumed

/-- `std::stod` on a `String`. -/
def stodModel (s : String) : StodResult := stodCore s.toList

/-- Models `std::lround` applied to the exact value of a decimal literal:
round to the nearest integer, ties away from zero. -/
def lroundDec (v : DecValue) : Int :=
  let e := v.exp10 - (v.fracLen : Int)
  if 0 ≤ e then v.sign * (v.mantissa : Int) * (10 : Int) ^ e.toNat
  else
    let d := (10 : Nat) ^ (-e).toNat
    let q := v.mantissa / d
    let r := v.mantissa % d
    v.sign * (if d ≤ 2 * r then (q : Int) + 1 else (q : Int))

/-- `kMaxCpu` from manager.cpp line 22. -/
def kMaxCpu : Int := 32

/-- Models `GuessCpuLimit` (manager.cpp lines 42-74): reads `CPU_LIMIT` from
the environment (`none` models an unset variable), parses it with
`std::stod`, requires the remaining suffix to be exactly `"c"`, rounds with
`std::lround`, and accepts only values strictly between 0 and `kMaxCpu`,
raising values below 3 to 3.  Every other outcome leaves the configured
value in force (`none`), with a log message. -/
def guessCpuLimit (env : Option String) : Option Nat :=
  match env with
  | none => none
  | some cpuLimit =>
    match stodModel cpuLimit with
    | .err => none
    | .ok cpuF endPos =>
      if cpuLimit.toList.drop endPos = ['c'] then
        let cpu := lroundDec cpuF
        if 0 < cpu ∧ cpu < kMaxCpu then
          some (if cpu < 3 then (3 : Int) else cpu).toNat
        else none
      else none

/-- Models the `worker_threads` selection in the Manager constructor
(manager.cpp lines 124-135): the CPU guess is consulted only when
`should_guess_cpu_limit` is set and the processor is the default task
processor, and it overrides the configured `worker_threads` only when
`GuessCpuLimit` returned a value. -/
def effectiveWorkerThreads (configWorkerThreads : Nat)
    (shouldGuessCpuLimit : Bool) (isDefaultTaskProcessor : Bool)
    (env : Option String) : Nat :=
  if shouldGuessCpuLimit && isDefaultTaskProcessor then
    (guessCpuLimit env).getD configWorkerThreads
  else configWorkerThreads

/-! ## Boot sequencing (manager.cpp, `Manager::CreateComponentContext` and
`Manager::AddComponents`, lines 196-295)

Each component-construction task either returns normally, throws a
`ComponentsLoadCancelledException`, or throws some other `std::exception`.
The manager-side joining logic of `AddComponents` is deterministic in these
outcomes, so it is embedded as a function from the list of outcomes to the
boot result plus the trace of manager-side actions. -/

/-- Runtime outcome of one component construction task
(the lambda of manager.cpp lines 235-252). -/
inductive Outcome
  | ok
  | cancelled
  | failed (msg : String)
deriving DecidableEq

/-- Whether an outcome is a non-cancellation exception. -/
def Outcome.isFailed : Outcome → Bool
  | Outcome.failed _ => true
  | _ => false

/-- Boot errors thrown out of `CreateComponentContext` / `AddComponents`. -/
inductive BootError
  /-- `std::runtime_error` of manager.cpp line 205. -/
  | duplicateComponent (name : String)
  /-- `std::runtime_error` of manager.cpp lines 221-224. -/
  | missingComponent (name : String)
  /-- The first non-cancellation exception, rethrown at line 272. -/
  | componentError (msg : String)
  /-- `std::logic_error` of manager.cpp lines 277-279; the exception type is
  the C++ invariant-violation error and is distinct from
  `ComponentsLoadCancelledException`, so a caller never observes this branch
  as a cancellation. -/
  | logicError (msg : String)
  /-- Exception escaping `OnAllComponentsLoaded`, rethrown at line 287. -/
  | onLoadedError (msg : String)
deriving DecidableEq

/-- Message of the `std::logic_error` at manager.cpp lines 277-279. -/
def loadCancelledLogicMsg : String :=
  "Components load cancelled, but only ComponentsLoadCancelledExceptions were caught"

/-- Manager-side actions during boot, in program order. -/
inductive BootEvent
  | createContext
  | scheduleTask (name : String)
  | cancelLoad
  | waitTask (name : String)
  | clearComponents
  | onAllComponentsLoaded
  | recordLoadDuration
deriving DecidableEq

/-- Result of a whole boot attempt: the manager-side event trace, the thrown
error (`none` on success) and the value of `load_duration_` in milliseconds
(initialised to 0 at line 121 and written only at line 291). -/
structure BootOutput where
  events : List BootEvent
  result : Option BootError
  loadDurationMs : Nat
deriving DecidableEq

/-- Duplicate scan of `CreateComponentContext` (manager.cpp lines 197-207):
names are inserted into a set one by one and the first name whose insertion
fails is reported. -/
def findDuplicate : List String → List String → Option String
  | [], _ => none
  | n :: rest, seen =>
    if n ∈ seen then some n else findDuplicate rest (n :: seen)

/-- First name of the configuration that is not registered in the component
list (manager.cpp lines 217-227). -/
def findUnregistered (configComponents : List String) (registered : List String) :
    Option String :=
  configComponents.find? (fun n => !(decide (n ∈ registered)))

/-- The `task.Get()` loop of manager.cpp lines 255-273: tasks are consumed
in order; a `ComponentsLoadCancelledException` only sets
`is_load_cancelled`; the first other exception is handled by the outer
catch, which cancels the load, waits for the remaining (still valid) tasks
without consuming their results, clears the components and rethrows.
Returns the manager-side events of this region and either the final
`is_load_cancelled` flag or the rethrown message. -/
def joinTasks : List (String × Outcome) → Bool → List BootEvent × (Bool ⊕ String)
  | [], flag => ([], Sum.inl flag)
  | (_, Outcome.ok) :: rest, flag => joinTasks rest flag
  | (_, Outcome.cancelled) :: rest, _ => joinTasks rest true
  | (_, Outcome.failed m) :: rest, _ =>
    (BootEvent.cancelLoad :: rest.map (fun p => BootEvent.waitTask p.1) ++
       [BootEvent.clearComponents],
     Sum.inr m)

/-- Models `Manager::AddComponents` (manager.cpp lines 214-295).
`configComponents` are the names in `config_->components`;
`componentList` pairs each registered component with the runtime outcome of
its construction task; `onAllLoaded` is the exception (if any) escaping
`OnAllComponentsLoaded`; `startNs`/`stopNs` are the steady-clock readings of
lines 229 and 290 in nanoseconds. -/
def addComponentsModel (configComponents : List String)
    (componentList : List (String × Outcome)) (onAllLoaded : Option String)
    (startNs stopNs : Nat) : BootOutput :=
  match findUnregistered configComponents (componentList.map Prod.fst) with
  | some n => ⟨[BootEvent.clearComponents], some (BootError.missingComponent n), 0⟩
  | none =>
    let sched := componentList.map fun p => BootEvent.scheduleTask p.1
    match joinTasks componentList false with
    | (jev, Sum.inr m) => ⟨sched ++ jev, some (BootError.componentError m), 0⟩
    | (jev, Sum.inl true) =>
      ⟨sched ++ jev ++ [BootEvent.clearComponents],
       some (BootError.logicError loadCancelledLogicMsg), 0⟩
    | (jev, Sum.inl false) =>
      match onAllLoaded with
      | some m =>
        ⟨sched ++ jev ++ [BootEvent.onAllComponentsLoaded, BootEvent.clearComponents],
         some (BootError.onLoadedError m), 0⟩
      | none =>
        ⟨sched ++ jev ++ [BootEvent.onAllComponentsLoaded, BootEvent.recordLoadDuration],
         none, (stopNs - startNs) / 1000000⟩

/-- Models `Manager::CreateComponentContext` (manager.cpp lines 196-212):
the duplicate scan runs first; only if it passes is the component context
created and `AddComponents` entered. -/
def createComponentContextModel (configComponents : List String)
    (componentList : List (String × Outcome)) (onAllLoaded : Option String)
    (startNs stopNs : Nat) : BootOutput :=
  match findDuplicate (componentList.map Prod.fst) [] with
  | some d => ⟨[], some (BootError.duplicateComponent d), 0⟩
  | none =>
    let out := addComponentsModel configComponents componentList onAllLoaded startNs stopNs
    ⟨BootEvent.createContext :: out.events, out.result, out.loadDurationMs⟩

/-! ## Per-component registration (manager.cpp, `Manager::AddComponentImpl`,
lines 297-327) -/

/-- Per-component configuration as seen by `AddComponentImpl`:
`loadEnabled` is the result of `ParseOptionalBool("load-enabled")`. -/
structure CompConfig where
  loadEnabled : Option Bool
deriving DecidableEq

/-- Lookup in the `ComponentConfigMap` (`config_map.find(name)`). -/
def lookupConfig (configMap : List (String × CompConfig)) (name : String) :
    Option CompConfig :=
  (configMap.find? (fun p => p.1 == name)).map Prod.snd

/-- Observable steps of `AddComponentImpl` past its checks. -/
inductive ImplEvent
  | invokeFactory
  | addToContext
deriving DecidableEq

/-- Result of `AddComponentImpl`. -/
inductive ImplResult
  /-- `std::runtime_error` of manager.cpp lines 305-306. -/
  | missingConfig (msg : String)
  /-- Early return of manager.cpp lines 310-314. -/
  | skipped
  /-- The component was registered via `ComponentContext::AddComponent`. -/
  | added
deriving DecidableEq

/-- Models `Manager::AddComponentImpl` (manager.cpp lines 297-327): a
missing config entry throws before anything runs; `load-enabled` defaults to
true and, when false, the method returns before the factory is invoked and
before the component is added to the context. -/
def addComponentImplModel (configMap : List (String × CompConfig))
    (name : String) : List ImplEvent × ImplResult :=
  match lookupConfig configMap name with
  | none =>
    ([], ImplResult.missingConfig ("Cannot start component " ++ name ++ ": missing config"))
  | some cfg =>
    let enabled := cfg.loadEnabled.getD true
    if !enabled then ([], ImplResult.skipped)
    else ([ImplEvent.invokeFactory, ImplEvent.addToContext], ImplResult.added)

/-! ## Shutdown (manager.cpp, `Manager::TaskProcessorsStorage::Reset`,
lines 88-104, and `Manager::~Manager`, lines 157-169) -/

/-- Observable shutdown steps of the manager and its task-processor
storage. -/
inductive MgrEvent
  | setComponentsCleared
  | ctxClearComponents
  | logCtxClearError (msg : String)
  | logClearError (msg : String)
  | releaseComponentContext
  | initiateShutdown (name : String)
  | sleep10ms
  | destroyTaskProcessors
  | releasePools
deriving DecidableEq

/-- Strong references to the `TaskProcessorPools`: the storage itself holds
one (`task_processor_pools_`, manager.cpp line 82) and each task processor
shares the pools it was constructed with (line 139).  Modelled from the
spec: a `TaskProcessor` retains its pools reference until it is destroyed
("shared by all processors in a manager; released only when every processor
has stopped"). -/
def poolsUseCount (storageHoldsRef : Bool) (processors : List String) : Nat :=
  (if storageHoldsRef then 1 else 0) + processors.length

/-- The busy-wait of manager.cpp lines 94-96: each observation of
`active_coroutines` that is non-zero costs one 10 ms sleep; the loop exits
on the first zero observation.  `none` models the loop never exiting. -/
def pollLoop : List Nat → Option (List MgrEvent)
  | [] => none
  | a :: rest =>
    if a = 0 then some []
    else (pollLoop rest).map fun es => MgrEvent.sleep10ms :: es

/-- Models `Manager::TaskProcessorsStorage::Reset` (manager.cpp lines
88-104): initiate shutdown on every processor, busy-wait for
`active_coroutines == 0` sleeping 10 ms per round, destroy the processors,
and release the pools only if the `UASSERT(use_count() == 1)` of line 101
holds for the storage state after the processor map was cleared. -/
def resetModel (processors : List String) (coroObs : List Nat) :
    Option (List MgrEvent) :=
  match pollLoop coroObs with
  | none => none
  | some polls =>
    if poolsUseCount true [] = 1 then
      some (processors.map MgrEvent.initiateShutdown ++ polls ++
        [MgrEvent.destroyTaskProcessors, MgrEvent.releasePools])
    else none

/-- Models `Manager::ClearComponents` (manager.cpp lines 329-339): the
`components_cleared_` flag is set under the lock, then
`ComponentContext::ClearComponents` runs; an exception from it is logged and
swallowed (`ctxClearThrows` is that exception, if any). -/
def clearComponentsModel (ctxClearThrows : Option String) : List MgrEvent :=
  MgrEvent.setComponentsCleared :: MgrEvent.ctxClearComponents ::
    (match ctxClearThrows with
     | none => []
     | some m => [MgrEvent.logCtxClearError m])

/-- Models `Manager::~Manager` (manager.cpp lines 157-169): the
`ClearComponents` step runs first (`clearThrows` is an exception escaping
the `RunInCoro(... ClearComponents ...)` call, caught and logged at lines
162-164); then the component context is released and the task-processor
storage is reset. -/
def managerDtorModel (clearThrows : Option String)
    (ctxClearThrows : Option String) (processors : List String)
    (coroObs : List Nat) : Option (List MgrEvent) :=
  (resetModel processors coroObs).map fun resetEvents =>
    (match clearThrows with
     | none => clearComponentsModel ctxClearThrows
     | some m => [MgrEvent.logClearError m]) ++
    [MgrEvent.releaseComponentContext] ++ resetEvents

/-! ## Helper lemmas -/

/-- A successful duplicate scan means the scanned names are distinct and
disjoint from the already-seen set. -/
theorem findDuplicate_none (l : List String) :
    ∀ seen, findDuplicate l seen = none → l.Nodup ∧ ∀ x ∈ l, x ∉ seen := by
  induction l with
  | nil => intro seen _; exact ⟨List.nodup_nil, by simp⟩
  | cons n rest ih =>
    intro seen h
    unfold findDuplicate at h
    by_cases hn : n ∈ seen
    · simp [hn] at h
    · rw [if_neg hn] at h
      obtain ⟨hnd, hall⟩ := ih (n :: seen) h
      refine ⟨List.nodup_cons.mpr ⟨fun hmem => ?_, hnd⟩, ?_⟩
      · exact hall n hmem (List.mem_cons_self n seen)
      · intro x hx
        rcases List.mem_cons.mp hx with hx | hx
        · exact hx ▸ hn
        · exact fun hs => hall x hx (List.mem_cons_of_mem _ hs)

/-- Joining the construction tasks when the first non-cancellation failure
sits between a clean prefix and the remaining tasks: the manager cancels the
load, waits for exactly the remaining tasks, clears the components and
rethrows the failure message. -/
theorem joinTasks_append_failure (post : List (String × Outcome)) (nm m : String) :
    ∀ (pre : List (String × Outcome)) (flag : Bool),
      (∀ p ∈ pre, p.2.isFailed = false) →
      joinTasks (pre ++ (nm, Outcome.failed m) :: post) flag =
        (BootEvent.cancelLoad :: post.map (fun p => BootEvent.waitTask p.1) ++
           [BootEvent.clearComponents],
         Sum.inr m) := by
  intro pre
  induction pre with
  | nil => intro flag _; rfl
  | cons p pre ih =>
    intro flag hpre
    obtain ⟨a, out⟩ := p
    cases out with
    | ok =>
      simpa [joinTasks] using ih flag fun q hq => hpre q (List.mem_cons_of_mem _ hq)
    | cancelled =>
      simpa [joinTasks] using ih true fun q hq => hpre q (List.mem_cons_of_mem _ hq)
    | failed m2 =>
      have := hpre (a, Outcome.failed m2) (List.mem_cons_self _ _)
      simp [Outcome.isFailed] at this

/-- Joining the construction tasks when no task failed with a
non-cancellation exception: nothing is rethrown, and the final
`is_load_cancelled` flag records whether any task was cancelled. -/
theorem joinTasks_no_failure (l : List (String × Outcome)) :
    ∀ flag, (∀ p ∈ l, p.2.isFailed = false) →
      joinTasks l flag =
        ([], Sum.inl (flag || l.any fun p => decide (p.2 = Outcome.cancelled))) := by
  induction l with
  | nil => intro flag _; simp [joinTasks]
  | cons p rest ih =>
    intro flag hl
    obtain ⟨a, out⟩ := p
    cases out with
    | ok =>
      have := ih flag fun q hq => hl q (List.mem_cons_of_mem _ hq)
      simpa [joinTasks] using this
    | cancelled =>
      have := ih true fun q hq => hl q (List.mem_cons_of_mem _ hq)
      simp [joinTasks, this]
    | failed m2 =>
      have := hl (a, Outcome.failed m2) (List.mem_cons_self _ _)
      simp [Outcome.isFailed] at this

/-- The join loop never records the load duration. -/
theorem recordLoadDuration_not_mem_joinTasks (l : List (String × Outcome)) :
    ∀ flag, BootEvent.recordLoadDuration ∉ (joinTasks l flag).1 := by
  induction l with
  | nil => intro flag; simp [joinTasks]
  | cons p rest ih =>
    intro flag
    obtain ⟨a, out⟩ := p
    cases out with
    | ok => simpa [joinTasks] using ih flag
    | cancelled => simpa [joinTasks] using ih true
    | failed m2 => simp [joinTasks]

/-- When the join loop falls through normally it has emitted no
manager-side events. -/
theorem joinTasks_inl_events (l : List (String × Outcome)) :
    ∀ flag ev b, joinTasks l flag = (ev, Sum.inl b) → ev = [] := by
  induction l with
  | nil =>
    intro flag ev b h
    simpa [joinTasks] using congrArg Prod.fst h
  | cons p rest ih =>
    intro flag ev b h
    obtain ⟨a, out⟩ := p
    cases out with
    | ok => exact ih flag ev b h
    | cancelled => exact ih true ev b h
    | failed m2 =>
      exact absurd (congrArg Prod.snd h) (by simp [joinTasks])

/-- Exact trace of `TaskProcessorsStorage::Reset`s busy-wait: one 10 ms
sleep per leading non-zero observation of `active_coroutines`. -/
theorem pollLoop_eq (obs : List Nat) (h : 0 ∈ obs) :
    pollLoop obs =
      some ((obs.takeWhile fun a => !(a == 0)).map fun _ => MgrEvent.sleep10ms) := by
  induction obs with
  | nil => cases h
  | cons a rest ih =>
    by_cases ha : a = 0
    · subst ha; simp [pollLoop]
    · have hrest : 0 ∈ rest := by
        rcases List.mem_cons.mp h with h0 | h0
        · exact absurd h0.symm ha
        · exact h0
      have hbeq : (a == 0) = false := beq_eq_false_iff_ne.mpr ha
      simp [pollLoop, ha, ih hrest, List.takeWhile, hbeq]

/-- Exact trace of `TaskProcessorsStorage::Reset` whenever the busy-wait
terminates. -/
theorem resetModel_eq (processors : List String) (obs : List Nat) (h : 0 ∈ obs) :
    resetModel processors obs =
      some (processors.map MgrEvent.initiateShutdown ++
        ((obs.takeWhile fun a => !(a == 0)).map fun _ => MgrEvent.sleep10ms) ++
        [MgrEvent.destroyTaskProcessors, MgrEvent.releasePools]) := by
  rw [resetModel, pollLoop_eq obs h]
  simp [poolsUseCount]

/-- Behaviour of the CPU limit parser on further decimal forms accepted by
`std::stod`: fractional values are rounded by `lround`, exponents, leading
whitespace, an explicit plus sign and a trailing dot are all accepted, and
values rounding below 3 are raised to 3. -/
theorem guessCpuLimit_decimal_forms :
    guessCpuLimit (some "2.6c") = some 3 ∧
    guessCpuLimit (some "30.7c") = some 31 ∧
    guessCpuLimit (some "31.7c") = none ∧
    guessCpuLimit (some "2.5c") = some 3 ∧
    guessCpuLimit (some "1e1c") = some 10 ∧
    guessCpuLimit (some " 4c") = some 4 ∧
    guessCpuLimit (some "+4c") = some 4 ∧
    guessCpuLimit (some "4.c") = some 4 ∧
    guessCpuLimit (some ".5c") = some 3 := by
  decide

/-! ## Claim theorems -/

/-- C2: when `should_guess_cpu_limit` is set for the default task processor,
the `CPU_LIMIT` environment variable, parsed as a decimal number followed by
`c`, overrides `worker_threads` clamped to the [3, 32) window: `"4c"` yields
4, `"2c"` yields 3; values at most 0 (`"0c"`, `"-5c"`), values at least 32
(`"32c"`, `"64c"`), values not suffixed with `c` (`"abc"`, `"4"`, `"4x"`)
and an unset variable leave the configured `worker_threads` unchanged. -/
theorem cpu_limit_env_parsing (w : Nat) :
    effectiveWorkerThreads w true true (some "4c") = 4 ∧
    effectiveWorkerThreads w true true (some "2c") = 3 ∧
    effectiveWorkerThreads w true true (some "0c") = w ∧
    effectiveWorkerThreads w true true (some "-5c") = w ∧
    effectiveWorkerThreads w true true (some "32c") = w ∧
    effectiveWorkerThreads w true true (some "64c") = w ∧
    effectiveWorkerThreads w true true (some "abc") = w ∧
    effectiveWorkerThreads w true true (some "4") = w ∧
    effectiveWorkerThreads w true true (some "4x") = w ∧
    effectiveWorkerThreads w true true none = w :=
  ⟨rfl, rfl, rfl, rfl, rfl, rfl, rfl, rfl, rfl, rfl⟩

/-- Witness for C2 at the concrete configured value 7. -/
theorem cpu_limit_env_parsing_witness :
    effectiveWorkerThreads 7 true true (some "4c") = 4 ∧
    effectiveWorkerThreads 7 true true (some "2c") = 3 ∧
    effectiveWorkerThreads 7 true true (some "0c") = 7 ∧
    effectiveWorkerThreads 7 true true (some "-5c") = 7 ∧
    effectiveWorkerThreads 7 true true (some "32c") = 7 ∧
    effectiveWorkerThreads 7 true true (some "64c") = 7 ∧
    effectiveWorkerThreads 7 true true (some "abc") = 7 ∧
    effectiveWorkerThreads 7 true true (some "4") = 7 ∧
    effectiveWorkerThreads 7 true true (some "4x") = 7 ∧
    effectiveWorkerThreads 7 true true none = 7 :=
  cpu_limit_env_parsing 7

/-- C1: if a construction task throws a non-cancellation exception (and
every earlier task did not), the manager cancels the component load, waits
for every remaining task without consuming its result, clears the
components and rethrows that first non-cancellation exception as the boot
result; the load duration stays unrecorded. -/
theorem first_failure_cancels_waits_clears_rethrows
    (configComponents : List String) (pre post : List (String × Outcome))
    (nm m : String) (onAllLoaded : Option String) (startNs stopNs : Nat)
    (hreg : ∀ n ∈ configComponents,
      n ∈ (pre ++ (nm, Outcome.failed m) :: post).map Prod.fst)
    (hpre : ∀ p ∈ pre, p.2.isFailed = false) :
    addComponentsModel configComponents (pre ++ (nm, Outcome.failed m) :: post)
        onAllLoaded startNs stopNs =
      ⟨((pre ++ (nm, Outcome.failed m) :: post).map fun p => BootEvent.scheduleTask p.1) ++
         (BootEvent.cancelLoad :: post.map (fun p => BootEvent.waitTask p.1) ++
           [BootEvent.clearComponents]),
       some (BootError.componentError m), 0⟩ := by
  have hnone : findUnregistered configComponents
      ((pre ++ (nm, Outcome.failed m) :: post).map Prod.fst) = none := by
    rw [findUnregistered, List.find?_eq_none]
    intro x hx
    have h0 := hreg x hx
    simp at h0 ⊢
    tauto
  rw [addComponentsModel, hnone, joinTasks_append_failure post nm m pre false hpre]

/-- Witness for C1: component `b` fails while `a` succeeded and `c` was
cancelled. -/
theorem first_failure_cancels_witness :
    addComponentsModel ["a", "b"]
        [("a", Outcome.ok), ("b", Outcome.failed "boom"), ("c", Outcome.cancelled)]
        none 0 0 =
      ⟨[BootEvent.scheduleTask "a", BootEvent.scheduleTask "b", BootEvent.scheduleTask "c",
        BootEvent.cancelLoad, BootEvent.waitTask "c", BootEvent.clearComponents],
       some (BootError.componentError "boom"), 0⟩ := by
  have h := first_failure_cancels_waits_clears_rethrows ["a", "b"]
    [("a", Outcome.ok)] [("c", Outcome.cancelled)] "b" "boom" none 0 0
    (by decide) (by decide)
  simpa using h

/-- C3: if after all construction tasks were joined the load was cancelled
but no non-cancellation exception was observed, the components are cleared
and then boot fails with the `std::logic_error` invariant-violation error of
manager.cpp lines 277-279 — an exception type distinct from the
cancellation exception, so the boot result is not a cancellation. -/
theorem cancelled_only_load_is_invariant_violation
    (configComponents : List String) (componentList : List (String × Outcome))
    (onAllLoaded : Option String) (startNs stopNs : Nat)
    (hreg : ∀ n ∈ configComponents, n ∈ componentList.map Prod.fst)
    (hnofail : ∀ p ∈ componentList, p.2.isFailed = false)
    (hcanc : ∃ p ∈ componentList, p.2 = Outcome.cancelled) :
    addComponentsModel configComponents componentList onAllLoaded startNs stopNs =
      ⟨(componentList.map fun p => BootEvent.scheduleTask p.1) ++
         [BootEvent.clearComponents],
       some (BootError.logicError loadCancelledLogicMsg), 0⟩ := by
  have hnone : findUnregistered configComponents (componentList.map Prod.fst) = none := by
    rw [findUnregistered, List.find?_eq_none]
    intro x hx
    simpa using hreg x hx
  have hany : (componentList.any fun p => decide (p.2 = Outcome.cancelled)) = true := by
    rw [List.any_eq_true]
    obtain ⟨p, hp, hc⟩ := hcanc
    exact ⟨p, hp, by simp [hc]⟩
  have hjoin := joinTasks_no_failure componentList false hnofail
  rw [hany] at hjoin
  rw [addComponentsModel, hnone, hjoin]
  simp

/-- Witness for C3: both components were cancelled, none failed. -/
theorem cancelled_only_load_witness :
    addComponentsModel ["a"] [("a", Outcome.cancelled), ("b", Outcome.cancelled)]
        none 0 0 =
      ⟨[BootEvent.scheduleTask "a", BootEvent.scheduleTask "b", BootEvent.clearComponents],
       some (BootError.logicError loadCancelledLogicMsg), 0⟩ := by
  have h := cancelled_only_load_is_invariant_violation ["a"]
    [("a", Outcome.cancelled), ("b", Outcome.cancelled)] none 0 0
    (by decide) (by decide) ⟨("a", Outcome.cancelled), by decide, rfl⟩
  simpa using h

/-- C4: if two entries of the component list share a name, boot fails with
the duplicate-component error, with no construction task scheduled and
before the component context is created: the event trace is empty. -/
theorem duplicate_component_fails_first
    (configComponents : List String) (componentList : List (String × Outcome))
    (onAllLoaded : Option String) (startNs stopNs : Nat)
    (hdup : ¬ (componentList.map Prod.fst).Nodup) :
    ∃ d, createComponentContextModel configComponents componentList onAllLoaded
        startNs stopNs =
      ⟨[], some (BootError.duplicateComponent d), 0⟩ := by
  cases hfd : findDuplicate (componentList.map Prod.fst) [] with
  | none => exact absurd (findDuplicate_none _ [] hfd).1 hdup
  | some d =>
    refine ⟨d, ?_⟩
    rw [createComponentContextModel, hfd]

/-- Witness for C4: the name `a` is registered twice. -/
theorem duplicate_component_witness :
    ∃ d, createComponentContextModel ["a"] [("a", Outcome.ok), ("a", Outcome.ok)]
        none 0 0 =
      ⟨[], some (BootError.duplicateComponent d), 0⟩ :=
  duplicate_component_fails_first ["a"] [("a", Outcome.ok), ("a", Outcome.ok)]
    none 0 0 (by decide)

/-- C5: if the configuration references a name that is not registered in the
component list, `AddComponents` clears the components and throws the
missing-component error naming an unregistered component, with no
construction task scheduled. -/
theorem unregistered_config_name_fails_before_tasks
    (configComponents : List String) (componentList : List (String × Outcome))
    (onAllLoaded : Option String) (startNs stopNs : Nat) (u : String)
    (h1 : u ∈ configComponents) (h2 : u ∉ componentList.map Prod.fst) :
    ∃ v, v ∈ configComponents ∧ v ∉ componentList.map Prod.fst ∧
      addComponentsModel configComponents componentList onAllLoaded startNs stopNs =
        ⟨[BootEvent.clearComponents], some (BootError.missingComponent v), 0⟩ := by
  have hsome : (findUnregistered configComponents (componentList.map Prod.fst)).isSome := by
    rw [findUnregistered, List.find?_isSome]
    exact ⟨u, h1, by simp [h2]⟩
  cases hfd : findUnregistered configComponents (componentList.map Prod.fst) with
  | none => rw [hfd] at hsome; cases hsome
  | some v =>
    have hv := List.find?_some hfd
    have hvmem := List.mem_of_find?_eq_some hfd
    refine ⟨v, hvmem, ?_, ?_⟩
    · simpa using hv
    · rw [addComponentsModel, hfd]

/-- Witness for C5: the configuration names `ghost` which is not
registered. -/
theorem unregistered_config_name_witness :
    ∃ v, v ∈ ["a", "ghost"] ∧ v ∉ ["a"] ∧
      addComponentsModel ["a", "ghost"] [("a", Outcome.ok)] none 0 0 =
        ⟨[BootEvent.clearComponents], some (BootError.missingComponent v), 0⟩ := by
  have h := unregistered_config_name_fails_before_tasks ["a", "ghost"]
    [("a", Outcome.ok)] none 0 0 "ghost" (by decide) (by decide)
  simpa using h

/-- C6: a component's `load-enabled` flag defaults to true when absent, so
the component is constructed; when configured false the component is
skipped: the factory is never invoked and nothing is added to the component
context. -/
theorem load_enabled_default_and_skip
    (configMap : List (String × CompConfig)) (name : String) (cfg : CompConfig) :
    (lookupConfig configMap name = some cfg → cfg.loadEnabled = none →
      addComponentImplModel configMap name =
        ([ImplEvent.invokeFactory, ImplEvent.addToContext], ImplResult.added)) ∧
    (lookupConfig configMap name = some cfg → cfg.loadEnabled = some false →
      addComponentImplModel configMap name = ([], ImplResult.skipped)) := by
  constructor
  · intro h1 h2
    rw [addComponentImplModel, h1]
    simp [h2]
  · intro h1 h2
    rw [addComponentImplModel, h1]
    simp [h2]

/-- Witness for C6: an absent flag leads to construction, an explicit false
leads to a skip. -/
theorem load_enabled_witness :
    addComponentImplModel [("a", CompConfig.mk none)] "a" =
      ([ImplEvent.invokeFactory, ImplEvent.addToContext], ImplResult.added) ∧
    addComponentImplModel [("b", CompConfig.mk (some false))] "b" =
      ([], ImplResult.skipped) :=
  ⟨(load_enabled_default_and_skip [("a", CompConfig.mk none)] "a"
      (CompConfig.mk none)).1 (by decide) rfl,
   (load_enabled_default_and_skip [("b", CompConfig.mk (some false))] "b"
      (CompConfig.mk (some false))).2 (by decide) rfl⟩

/-- C10: a registered component whose name has no entry in the
configuration fails with an error naming the component and its missing
config, and the factory is never invoked. -/
theorem missing_config_blocks_construction
    (configMap : List (String × CompConfig)) (name : String)
    (h : lookupConfig configMap name = none) :
    addComponentImplModel configMap name =
      ([], ImplResult.missingConfig
        ("Cannot start component " ++ name ++ ": missing config")) := by
  rw [addComponentImplModel, h]

/-- Witness for C10: the component `ghost` has no configuration entry. -/
theorem missing_config_witness :
    addComponentImplModel [("other", CompConfig.mk none)] "ghost" =
      ([], ImplResult.missingConfig "Cannot start component ghost: missing config") := by
  have h := missing_config_blocks_construction [("other", CompConfig.mk none)]
    "ghost" (by decide)
  simpa using h

/-- C7: during shutdown the task-processor storage first initiates shutdown
on every task processor, then sleeps 10 ms per non-zero observation of
`active_coroutines`, then destroys all task processors and only then
releases the pools; the release happens exactly when the asserted condition
holds, and after the processors are destroyed the pools use count is 1
(storage reference only), down from `1 + #processors`. -/
theorem reset_shutdown_order (processors : List String) (obs : List Nat)
    (h : 0 ∈ obs) :
    resetModel processors obs =
      some (processors.map MgrEvent.initiateShutdown ++
        ((obs.takeWhile fun a => !(a == 0)).map fun _ => MgrEvent.sleep10ms) ++
        [MgrEvent.destroyTaskProcessors, MgrEvent.releasePools]) ∧
    poolsUseCount true [] = 1 ∧
    poolsUseCount true processors = 1 + processors.length := by
  refine ⟨resetModel_eq processors obs h, rfl, ?_⟩
  simp [poolsUseCount, Nat.add_comm]

/-- Witness for C7: two processors, the coroutines drain after two polls. -/
theorem reset_shutdown_order_witness :
    resetModel ["main-task-processor", "fs-task-processor"] [3, 1, 0] =
      some ([MgrEvent.initiateShutdown "main-task-processor",
             MgrEvent.initiateShutdown "fs-task-processor",
             MgrEvent.sleep10ms, MgrEvent.sleep10ms,
             MgrEvent.destroyTaskProcessors, MgrEvent.releasePools]) ∧
    poolsUseCount true [] = 1 ∧
    poolsUseCount true ["main-task-processor", "fs-task-processor"] = 1 + 2 := by
  have h := reset_shutdown_order ["main-task-processor", "fs-task-processor"]
    [3, 1, 0] (by decide)
  simpa using h

/-- C8: if clearing the components throws during manager destruction, the
exception is logged and swallowed and shutdown still completes: the
component context is released, every task processor is shut down, the
processors are destroyed and the pools are released. -/
theorem shutdown_completes_despite_clear_failure
    (clearThrows ctxClearThrows : Option String) (processors : List String)
    (obs : List Nat) (h : 0 ∈ obs) :
    ∃ tr, managerDtorModel clearThrows ctxClearThrows processors obs = some tr ∧
      MgrEvent.releaseComponentContext ∈ tr ∧
      (∀ p ∈ processors, MgrEvent.initiateShutdown p ∈ tr) ∧
      MgrEvent.destroyTaskProcessors ∈ tr ∧
      MgrEvent.releasePools ∈ tr ∧
      (∀ m, clearThrows = some m → MgrEvent.logClearError m ∈ tr) ∧
      (∀ m, clearThrows = none → ctxClearThrows = some m →
        MgrEvent.logCtxClearError m ∈ tr) := by
  have hr := resetModel_eq processors obs h
  refine ⟨_, by rw [managerDtorModel.eq_def, hr]; rfl, ?_, ?_, ?_, ?_, ?_, ?_⟩
  · cases clearThrows <;> simp [clearComponentsModel]
  · intro p hp
    cases clearThrows <;> simp [clearComponentsModel, List.mem_map] <;> tauto
  · cases clearThrows <;> simp [clearComponentsModel]
  · cases clearThrows <;> simp [clearComponentsModel]
  · intro m hm
    subst hm
    simp
  · intro m hm hcm
    subst hm
    subst hcm
    simp [clearComponentsModel]

/-- Witness for C8: both the clear step and the context clear have failing
variants; shown here for a failing clear step. -/
theorem shutdown_completes_witness :
    ∃ tr, managerDtorModel (some "boom") none ["main"] [1, 0] = some tr ∧
      MgrEvent.releaseComponentContext ∈ tr ∧
      (∀ p ∈ ["main"], MgrEvent.initiateShutdown p ∈ tr) ∧
      MgrEvent.destroyTaskProcessors ∈ tr ∧
      MgrEvent.releasePools ∈ tr ∧
      (∀ m, (some "boom" : Option String) = some m → MgrEvent.logClearError m ∈ tr) ∧
      (∀ m, (some "boom" : Option String) = none → (none : Option String) = some m →
        MgrEvent.logCtxClearError m ∈ tr) :=
  shutdown_completes_despite_clear_failure (some "boom") none ["main"] [1, 0]
    (by decide)

/-- C9 counterexample: a boot that reports success after less than one
millisecond of steady-clock time has `GetLoadDuration() = 0` — the duration
is not strictly positive, because line 291 truncates to whole
milliseconds. -/
theorem load_duration_zero_on_fast_success :
    (createComponentContextModel ["a"] [("a", Outcome.ok)] none 0 500000).result
        = none ∧
    (createComponentContextModel ["a"] [("a", Outcome.ok)] none 0 500000).loadDurationMs
        = 0 := by
  decide

/-- C9 (amended): for every boot that reports success the recorded load
duration equals the elapsed steady-clock time truncated to whole
milliseconds — strictly positive only when boot took at least one
millisecond — and it is recorded only after `OnAllComponentsLoaded`
succeeded; every failing boot leaves the duration at its initial 0 and
never records it. -/
theorem load_duration_recorded_after_hooks
    (configComponents : List String) (componentList : List (String × Outcome))
    (onAllLoaded : Option String) (startNs stopNs : Nat) :
    ((createComponentContextModel configComponents componentList onAllLoaded
        startNs stopNs).result = none →
      (createComponentContextModel configComponents componentList onAllLoaded
          startNs stopNs).events =
        BootEvent.createContext ::
          (componentList.map fun p => BootEvent.scheduleTask p.1) ++
          [BootEvent.onAllComponentsLoaded, BootEvent.recordLoadDuration] ∧
      (createComponentContextModel configComponents componentList onAllLoaded
          startNs stopNs).loadDurationMs = (stopNs - startNs) / 1000000) ∧
    (∀ e, (createComponentContextModel configComponents componentList onAllLoaded
        startNs stopNs).result = some e →
      (createComponentContextModel configComponents componentList onAllLoaded
          startNs stopNs).loadDurationMs = 0 ∧
      BootEvent.recordLoadDuration ∉
        (createComponentContextModel configComponents componentList onAllLoaded
          startNs stopNs).events) := by
  rw [createComponentContextModel]
  cases hfd : findDuplicate (componentList.map Prod.fst) [] with
  | some d => exact ⟨fun h => by simp at h, fun e _ => ⟨rfl, by simp⟩⟩
  | none =>
    rw [addComponentsModel]
    cases hfu : findUnregistered configComponents (componentList.map Prod.fst) with
    | some n =>
      refine ⟨fun h => by simp at h, fun e _ => ⟨rfl, ?_⟩⟩
      simp
    | none =>
      have hrec := recordLoadDuration_not_mem_joinTasks componentList false
      cases hj : joinTasks componentList false with
      | mk jev jres =>
        rw [hj] at hrec
        cases jres with
        | inr m =>
          refine ⟨fun h => by simp at h, fun e _ => ⟨rfl, ?_⟩⟩
          simp [List.mem_append, List.mem_map]
          exact fun hmem => hrec (by simpa using hmem)
        | inl b =>
          have hjev : jev = [] := joinTasks_inl_events componentList false jev b hj
          subst hjev
          cases b with
          | true =>
            refine ⟨fun h => by simp at h, fun e _ => ⟨rfl, ?_⟩⟩
            simp [List.mem_append, List.mem_map]
          | false =>
            cases onAllLoaded with
            | some m =>
              refine ⟨fun h => by simp at h, fun e _ => ⟨rfl, ?_⟩⟩
              simp [List.mem_append, List.mem_map]
            | none =>
              refine ⟨fun _ => ⟨by simp, rfl⟩, fun e he => absurd he (by simp)⟩

/-- Witness for C9 (amended): a 2.5 ms successful boot records 2 ms; a
failing boot records nothing. -/
theorem load_duration_witness :
    (createComponentContextModel ["a"] [("a", Outcome.ok)] none 0 2500000).loadDurationMs
        = 2 ∧
    (createComponentContextModel ["a"] [("a", Outcome.failed "boom")] none 0
        2500000).loadDurationMs = 0 :=
  ⟨((load_duration_recorded_after_hooks ["a"] [("a", Outcome.ok)] none 0 2500000).1
      (by decide)).2,
   ((load_duration_recorded_after_hooks ["a"] [("a", Outcome.failed "boom")] none 0
      2500000).2 (BootError.componentError "boom") (by decide)).1⟩

end Userver
